import Mathlib

/-!
Verification of the radioprotection `DetectorConstruction` component
(Geant4 advanced example), from the header
`src/examples/advanced/radioprotection/include/DetectorConstruction.hh`.

Two layers of embedding:

1. The header declaration itself, transcribed as data: the class member
   list with access levels, kinds, parameter types and return types.
   Claims about the declared interface (visibility, declared state,
   signatures) are settled against this transcription.

2. The behavior of the geometry selector. The repository under `src/`
   holds only the declaration, so the bodies of `Construct`,
   `ConstructSDandField` and the four variant builders are modelled
   from the specification (each such definition carries a doc comment
   starting with `Modelled from the spec:`).
-/

/- ### Layer 1: the class declaration, transcribed from the header. -/

/-- Access level of a C++ class member, as written in the header. -/
inductive Access where
  | pub
  | priv
deriving DecidableEq

/-- The C++ types that appear in the header declaration: `void`, a
pointer to a named class, and `G4String`. -/
inductive CppType where
  | voidT
  | ptrT (cls : String)
  | strT
deriving DecidableEq

/-- The kind of a class member: constructor, destructor, member
function, or data member. -/
inductive MemberKind where
  | ctor
  | dtor
  | method
  | dataField
deriving DecidableEq

/-- One member declaration of a C++ class: its access level, kind,
name, result type (for a data member, the declared type of the field)
and parameter types. -/
structure Member where
  access : Access
  kind : MemberKind
  name : String
  ret : CppType
  params : List CppType
deriving DecidableEq

/-- The member list of `class DetectorConstruction`, transcribed in
order from lines 43-60 of `DetectorConstruction.hh`. -/
def detectorConstructionDecl : List Member :=
  [ ⟨Access.pub, MemberKind.ctor, "DetectorConstruction", CppType.voidT,
      [CppType.ptrT "AnalysisManager", CppType.strT]⟩,
    ⟨Access.pub, MemberKind.dtor, "~DetectorConstruction", CppType.voidT, []⟩,
    ⟨Access.pub, MemberKind.method, "Construct",
      CppType.ptrT "G4VPhysicalVolume", []⟩,
    ⟨Access.pub, MemberKind.method, "ConstructSDandField", CppType.voidT, []⟩,
    ⟨Access.priv, MemberKind.dataField, "analysis",
      CppType.ptrT "AnalysisManager", []⟩,
    ⟨Access.priv, MemberKind.dataField, "detectorType", CppType.strT, []⟩,
    ⟨Access.priv, MemberKind.method, "ConstructDiamondDetector",
      CppType.ptrT "G4VPhysicalVolume", []⟩,
    ⟨Access.priv, MemberKind.method, "ConstructMicroDiamondDetector",
      CppType.ptrT "G4VPhysicalVolume", []⟩,
    ⟨Access.priv, MemberKind.method, "ConstructSiliconDetector",
      CppType.ptrT "G4VPhysicalVolume", []⟩,
    ⟨Access.priv, MemberKind.method, "ConstructSiliconBridgeDetector",
      CppType.ptrT "G4VPhysicalVolume", []⟩ ]

/-- The names of the four private variant builders declared in the
header. -/
def builderNames : List String :=
  [ "ConstructDiamondDetector", "ConstructMicroDiamondDetector",
    "ConstructSiliconDetector", "ConstructSiliconBridgeDetector" ]

/-- Whether a C++ type can carry information back to a caller: `void`
carries none, every other type does. -/
def carriesValue : CppType → Bool
  | CppType.voidT => false
  | _ => true

/- ### Layer 2: behavior of the geometry selector, modelled from the spec. -/

/-- The four geometry variants named by the private builders in the
header: diamond, micro-diamond, silicon, silicon-bridge. -/
inductive Variant where
  | diamond
  | microDiamond
  | silicon
  | siliconBridge
deriving DecidableEq, Fintype

/-- Modelled from the spec: the body of `Construct` is not under
`src/`; the spec gives the supported token set {diamond,
micro-diamond, silicon, silicon-bridge} and a single fixed-arity
dispatch over the token value. `variantOf` maps a token to the variant
it selects, or `none` for an unsupported token. -/
def variantOf (token : String) : Option Variant :=
  if token = "diamond" then some Variant.diamond
  else if token = "micro-diamond" then some Variant.microDiamond
  else if token = "silicon" then some Variant.silicon
  else if token = "silicon-bridge" then some Variant.siliconBridge
  else none

/-- One placed volume of a geometry tree: its name, the name of the
parent volume it is contained in (`none` for the world root), and
whether a sensitive detector is attached to it. -/
structure Placement where
  volume : String
  parent : Option String
  sensitive : Bool
deriving DecidableEq

/-- A geometry tree, flattened to its list of placements (root
first); containment is recorded by the `parent` field. -/
abbrev GeometryTree := List Placement

/-- Modelled from the spec: the diamond variant builder returns a
fixed tree for that variant only (materials and dimensions presumed
fixed per variant). -/
def diamondTree : GeometryTree :=
  [ ⟨"World", none, false⟩,
    ⟨"diamondDetector", some "World", false⟩,
    ⟨"diamondSensitiveVolume", some "diamondDetector", false⟩ ]

/-- Modelled from the spec: the micro-diamond variant builder returns
a fixed tree for that variant only. -/
def microDiamondTree : GeometryTree :=
  [ ⟨"World", none, false⟩,
    ⟨"microDiamondDetector", some "World", false⟩,
    ⟨"microDiamondSensitiveVolume", some "microDiamondDetector", false⟩ ]

/-- Modelled from the spec: the silicon variant builder returns a
fixed tree for that variant only. -/
def siliconTree : GeometryTree :=
  [ ⟨"World", none, false⟩,
    ⟨"siliconDetector", some "World", false⟩,
    ⟨"siliconSensitiveVolume", some "siliconDetector", false⟩ ]

/-- Modelled from the spec: the silicon-bridge variant builder returns
a fixed tree for that variant only. -/
def siliconBridgeTree : GeometryTree :=
  [ ⟨"World", none, false⟩,
    ⟨"siliconBridgeDetector", some "World", false⟩,
    ⟨"siliconBridgeSensitiveVolume", some "siliconBridgeDetector", false⟩ ]

/-- The fixed tree built by each variant builder. -/
def variantTree : Variant → GeometryTree
  | Variant.diamond => diamondTree
  | Variant.microDiamond => microDiamondTree
  | Variant.silicon => siliconTree
  | Variant.siliconBridge => siliconBridgeTree

/-- The variant-specific volume names of each variant (the shared
world volume excluded). -/
def variantNames : Variant → List String
  | Variant.diamond => ["diamondDetector", "diamondSensitiveVolume"]
  | Variant.microDiamond =>
      ["microDiamondDetector", "microDiamondSensitiveVolume"]
  | Variant.silicon => ["siliconDetector", "siliconSensitiveVolume"]
  | Variant.siliconBridge =>
      ["siliconBridgeDetector", "siliconBridgeSensitiveVolume"]

/-- The names of all volumes placed in a tree. -/
def volumeNames (t : GeometryTree) : List String := t.map Placement.volume

/-- Observable events of one construction pass: the dispatch reading
the stored token, and a variant builder being invoked. -/
inductive Event where
  | readToken (token : String)
  | invokeBuilder (v : Variant)
deriving DecidableEq

/-- The errors `Construct` can surface: an unsupported token
(configuration error) or a builder failure (assembly error). -/
inductive ConstructError where
  | config (token : String)
  | assembly (msg : String)
deriving DecidableEq

/-- Modelled from the spec: the body of `Construct` is not under
`src/`. One construction pass reads the stored token once, dispatches
to exactly the one builder selected by the token, and returns that
builder result; an unsupported token is a fatal configuration error
with no builder invoked, and a builder failure is surfaced as a fatal
assembly error with no retry and no substitute variant. The builder
map is a parameter so that builder failure can be stated. Returns the
event trace of the pass together with its result. -/
def constructTraceWith (builders : Variant → Except String GeometryTree)
    (token : String) : List Event × Except ConstructError GeometryTree :=
  match variantOf token with
  | none => ([Event.readToken token], Except.error (ConstructError.config token))
  | some v =>
    match builders v with
    | Except.ok t =>
        ([Event.readToken token, Event.invokeBuilder v], Except.ok t)
    | Except.error e =>
        ([Event.readToken token, Event.invokeBuilder v],
          Except.error (ConstructError.assembly e))

/-- Modelled from the spec: the four variant builders of the header,
each returning the fixed tree of its own variant. -/
def variantBuilders : Variant → Except String GeometryTree :=
  fun v => Except.ok (variantTree v)

/-- The result of one call to `Construct` on the stored token. -/
def construct (token : String) : Except ConstructError GeometryTree :=
  (constructTraceWith variantBuilders token).2

/-- The builders invoked during a pass, in order, read off its trace. -/
def buildersInvoked (evs : List Event) : List Variant :=
  evs.filterMap fun e =>
    match e with
    | Event.invokeBuilder v => some v
    | _ => none

/-- How many times the stored token was read during a pass. -/
def readTokenCount (evs : List Event) : Nat :=
  (evs.filter fun e =>
    match e with
    | Event.readToken _ => true
    | _ => false).length

/-- Lifecycle phase of a session: before `Construct` has completed, or
after it completed with the tree it built. -/
inductive Phase where
  | unbuilt
  | built (tree : GeometryTree)
deriving DecidableEq

/-- A session of the selector: the token stored at construction of the
object, and the lifecycle phase of the geometry. -/
structure Session where
  token : String
  phase : Phase
deriving DecidableEq

/-- The error `ConstructSDandField` signals when called out of order. -/
inductive AttachError where
  | sequencingError
deriving DecidableEq

/-- One invocation of `Construct` at the session level: on success the
session moves to the built phase with the tree produced from the
stored token; the token itself is left untouched. -/
def constructStep (s : Session) : Except ConstructError Session :=
  match construct s.token with
  | Except.ok t => Except.ok { s with phase := Phase.built t }
  | Except.error e => Except.error e

/-- Modelled from the spec: the designated sensitive volumes that
`ConstructSDandField` instruments, one per variant. -/
def designatedSensitive : List String :=
  [ "diamondSensitiveVolume", "microDiamondSensitiveVolume",
    "siliconSensitiveVolume", "siliconBridgeSensitiveVolume" ]

/-- Set the sensitivity flag of a placement when its volume is a
designated sensitive volume; the name and the parent are untouched. -/
def markSensitive (p : Placement) : Placement :=
  { p with sensitive := p.sensitive || designatedSensitive.contains p.volume }

/-- Modelled from the spec: the body of `ConstructSDandField` is not
under `src/`; per the spec it only associates sensitivity with
existing logical volumes of the previously built tree. -/
def attachSensitivity (t : GeometryTree) : GeometryTree := t.map markSensitive

/-- One invocation of `ConstructSDandField` at the session level:
before `Construct` has completed it fails with a sequencing error;
afterwards it replaces the built tree by the instrumented tree. -/
def attachStep (s : Session) : Except AttachError Session :=
  match s.phase with
  | Phase.unbuilt => Except.error AttachError.sequencingError
  | Phase.built t =>
      Except.ok { s with phase := Phase.built (attachSensitivity t) }

/-- The topology of a tree: its volume names with their containment
relationships, the sensitivity flags erased. -/
def topology (t : GeometryTree) : List (String × Option String) :=
  t.map fun p => (p.volume, p.parent)

/-- The number of volumes placed in a tree. -/
def volumeCount (t : GeometryTree) : Nat := t.length

/- ### Helper lemmas. -/

/-- Distinct variants place disjoint variant-specific volumes. -/
theorem variant_volumes_disjoint :
    ∀ v w : Variant, w ≠ v →
      ∀ n ∈ variantNames w, n ∉ volumeNames (variantTree v) := by
  decide

/-- Every variant tree has exactly one top-level (parentless) volume. -/
theorem variant_single_root :
    ∀ v : Variant,
      ((variantTree v).filter fun p => p.parent.isNone).length = 1 := by
  decide

/-- Inverting a successful session-level `Construct` invocation. -/
theorem constructStep_ok_inv (s r : Session)
    (h : constructStep s = Except.ok r) :
    ∃ t, construct s.token = Except.ok t ∧
      r = { s with phase := Phase.built t } := by
  rcases hc : construct s.token with e | t
  · simp [constructStep, hc] at h
  · simp only [constructStep, hc, Except.ok.injEq] at h
    exact ⟨t, rfl, h.symm⟩

/-- Inverting a successful session-level `ConstructSDandField`
invocation. -/
theorem attachStep_ok_inv (s r : Session)
    (h : attachStep s = Except.ok r) :
    ∃ t, s.phase = Phase.built t ∧
      r = { s with phase := Phase.built (attachSensitivity t) } := by
  rcases hp : s.phase with _ | t
  · simp [attachStep, hp] at h
  · simp only [attachStep, hp, Except.ok.injEq] at h
    exact ⟨t, rfl, h.symm⟩

/-- A construction pass reads the stored token exactly once, whatever
the token and the builders. -/
theorem readTokenCount_one (builders : Variant → Except String GeometryTree)
    (token : String) :
    readTokenCount (constructTraceWith builders token).1 = 1 := by
  unfold constructTraceWith
  rcases variantOf token with _ | v
  · simp [readTokenCount]
  · rcases hb : builders v with e | t <;> simp [readTokenCount, hb]

/- ### Claim theorems. -/

/-- Claim C1: for every supported detector-type token, `construct`
returns the tree of exactly the one variant builder selected by the
token, the trace shows that builder and no other was invoked (mutually
exclusive dispatch, no fallthrough, no merging), the returned tree has
exactly one top-level volume, and it contains no variant-specific
volume of any other variant. -/
theorem construct_dispatch_exclusive (token : String) (v : Variant)
    (h : variantOf token = some v) :
    construct token = Except.ok (variantTree v) ∧
    buildersInvoked (constructTraceWith variantBuilders token).1 = [v] ∧
    ((variantTree v).filter fun p => p.parent.isNone).length = 1 ∧
    ∀ w : Variant, w ≠ v →
      ∀ n ∈ variantNames w, n ∉ volumeNames (variantTree v) := by
  refine ⟨?_, ?_, variant_single_root v, fun w hw => variant_volumes_disjoint v w hw⟩
  · simp [construct, constructTraceWith, h, variantBuilders]
  · simp [constructTraceWith, h, variantBuilders, buildersInvoked]

/-- Claim C1 witness: the dispatch instantiated at the token
"diamond". -/
theorem construct_dispatch_exclusive_witness :
    construct "diamond" = Except.ok (variantTree Variant.diamond) ∧
    buildersInvoked
      (constructTraceWith variantBuilders "diamond").1 = [Variant.diamond] ∧
    ((variantTree Variant.diamond).filter fun p => p.parent.isNone).length = 1 ∧
    ∀ w : Variant, w ≠ Variant.diamond →
      ∀ n ∈ variantNames w, n ∉ volumeNames (variantTree Variant.diamond) :=
  construct_dispatch_exclusive "diamond" Variant.diamond (by decide)

/-- Claim C2: for a token outside the supported set, `construct`
surfaces a configuration error naming the token, returns no tree, and
invokes no builder at all (no substitution by a default variant). -/
theorem construct_unsupported (token : String)
    (h : variantOf token = none) :
    construct token = Except.error (ConstructError.config token) ∧
    buildersInvoked (constructTraceWith variantBuilders token).1 = [] := by
  constructor
  · simp [construct, constructTraceWith, h]
  · simp [constructTraceWith, h, buildersInvoked]

/-- Claim C2 witness: the unsupported token "unknown". -/
theorem construct_unsupported_witness :
    construct "unknown" = Except.error (ConstructError.config "unknown") ∧
    buildersInvoked (constructTraceWith variantBuilders "unknown").1 = [] :=
  construct_unsupported "unknown" (by decide)

/-- Claim C3: invoking `ConstructSDandField` on a session in which
`Construct` has not completed fails with the sequencing error; the
session is not silently operated on. -/
theorem attach_before_construct (s : Session)
    (h : s.phase = Phase.unbuilt) :
    attachStep s = Except.error AttachError.sequencingError := by
  simp [attachStep, h]

/-- Claim C3 witness: an unbuilt session with the token "diamond". -/
theorem attach_before_construct_witness :
    attachStep { token := "diamond", phase := Phase.unbuilt } =
      Except.error AttachError.sequencingError :=
  attach_before_construct { token := "diamond", phase := Phase.unbuilt } rfl

/-- Claim C4: after a successful `Construct`, `ConstructSDandField`
succeeds and replaces the built tree by its instrumented form, whose
topology is unchanged: same volume count, same volume names and
containment relationships; per placement only the sensitivity flag can
change, and a flag already set stays set. -/
theorem attach_preserves_topology (s : Session) (t : GeometryTree)
    (h : s.phase = Phase.built t) :
    attachStep s =
      Except.ok { s with phase := Phase.built (attachSensitivity t) } ∧
    topology (attachSensitivity t) = topology t ∧
    volumeCount (attachSensitivity t) = volumeCount t ∧
    ∀ p ∈ t, (markSensitive p).volume = p.volume ∧
      (markSensitive p).parent = p.parent ∧
      (p.sensitive = true → (markSensitive p).sensitive = true) := by
  refine ⟨by simp [attachStep, h], ?_, ?_, ?_⟩
  · simp [topology, attachSensitivity, markSensitive]
  · simp [volumeCount, attachSensitivity]
  · intro p _
    refine ⟨rfl, rfl, fun hs => ?_⟩
    simp [markSensitive, hs]

/-- Claim C4 witness: the silicon session after a successful
`Construct`. -/
theorem attach_preserves_topology_witness :
    attachStep (Session.mk "silicon" (Phase.built (variantTree Variant.silicon))) =
      Except.ok (Session.mk "silicon"
        (Phase.built (attachSensitivity (variantTree Variant.silicon)))) ∧
    topology (attachSensitivity (variantTree Variant.silicon)) =
      topology (variantTree Variant.silicon) ∧
    volumeCount (attachSensitivity (variantTree Variant.silicon)) =
      volumeCount (variantTree Variant.silicon) ∧
    ∀ p ∈ variantTree Variant.silicon, (markSensitive p).volume = p.volume ∧
      (markSensitive p).parent = p.parent ∧
      (p.sensitive = true → (markSensitive p).sensitive = true) :=
  attach_preserves_topology
    (Session.mk "silicon" (Phase.built (variantTree Variant.silicon)))
    (variantTree Variant.silicon) rfl

/-- Claim C5: the stored detector-type token is never mutated by a
successful `Construct` invocation nor by a successful
`ConstructSDandField` invocation, and one construction pass reads the
token exactly once. -/
theorem token_immutable_read_once (s r1 r2 : Session)
    (h1 : constructStep s = Except.ok r1)
    (h2 : attachStep s = Except.ok r2) :
    r1.token = s.token ∧ r2.token = s.token ∧
    readTokenCount (constructTraceWith variantBuilders s.token).1 = 1 := by
  obtain ⟨t, _, hr1⟩ := constructStep_ok_inv s r1 h1
  obtain ⟨u, _, hr2⟩ := attachStep_ok_inv s r2 h2
  exact ⟨by rw [hr1], by rw [hr2], readTokenCount_one variantBuilders s.token⟩

/-- Claim C5 witness: a built diamond session, on which both
operations succeed. -/
theorem token_immutable_read_once_witness :
    (Session.mk "diamond" (Phase.built (variantTree Variant.diamond))).token =
      (Session.mk "diamond" (Phase.built (variantTree Variant.diamond))).token ∧
    (Session.mk "diamond"
        (Phase.built (attachSensitivity (variantTree Variant.diamond)))).token =
      (Session.mk "diamond" (Phase.built (variantTree Variant.diamond))).token ∧
    readTokenCount (constructTraceWith variantBuilders
      (Session.mk "diamond" (Phase.built (variantTree Variant.diamond))).token).1 = 1 :=
  token_immutable_read_once
    (Session.mk "diamond" (Phase.built (variantTree Variant.diamond)))
    (Session.mk "diamond" (Phase.built (variantTree Variant.diamond)))
    (Session.mk "diamond" (Phase.built (attachSensitivity (variantTree Variant.diamond))))
    rfl rfl

/-- Claim C6: construction is deterministic in the token — two
sessions storing equal tokens get equal `construct` results — and
re-invoking `Construct` a second time in one session yields a
structurally identical tree (the same phase contents). -/
theorem construct_consistent (s1 s2 r1 r2 : Session)
    (h : s1.token = s2.token)
    (h1 : constructStep s1 = Except.ok r1)
    (h2 : constructStep r1 = Except.ok r2) :
    construct s1.token = construct s2.token ∧ r1.phase = r2.phase := by
  obtain ⟨t, hc, hr1⟩ := constructStep_ok_inv s1 r1 h1
  obtain ⟨u, hc2, hr2⟩ := constructStep_ok_inv r1 r2 h2
  have ht : r1.token = s1.token := by rw [hr1]
  rw [ht, hc] at hc2
  injection hc2 with htu
  refine ⟨by rw [h], ?_⟩
  rw [hr1, hr2, ← htu, hr1]

/-- Claim C6 witness: the silicon token, constructed twice. -/
theorem construct_consistent_witness :
    construct (Session.mk "silicon" Phase.unbuilt).token =
      construct (Session.mk "silicon" Phase.unbuilt).token ∧
    (Session.mk "silicon" (Phase.built (variantTree Variant.silicon))).phase =
      (Session.mk "silicon" (Phase.built (variantTree Variant.silicon))).phase :=
  construct_consistent
    (Session.mk "silicon" Phase.unbuilt)
    (Session.mk "silicon" Phase.unbuilt)
    (Session.mk "silicon" (Phase.built (variantTree Variant.silicon)))
    (Session.mk "silicon" (Phase.built (variantTree Variant.silicon)))
    rfl rfl rfl

/-- Claim C7: when the builder selected by a supported token fails,
the construction pass surfaces that failure as a fatal assembly error,
the failing builder is the only builder invoked (no retry), and no
other variant is built in its place. -/
theorem assembly_error_surfaced
    (builders : Variant → Except String GeometryTree)
    (token : String) (v : Variant) (e : String)
    (h : variantOf token = some v) (hb : builders v = Except.error e) :
    (constructTraceWith builders token).2 =
      Except.error (ConstructError.assembly e) ∧
    buildersInvoked (constructTraceWith builders token).1 = [v] := by
  constructor <;> simp [constructTraceWith, h, hb, buildersInvoked]

/-- Builders that all fail for want of a material, used to exhibit the
assembly-error path. -/
def failingBuilders : Variant → Except String GeometryTree :=
  fun _ => Except.error "missing material"

/-- Claim C7 witness: the diamond builder failing on a missing
material. -/
theorem assembly_error_surfaced_witness :
    (constructTraceWith failingBuilders "diamond").2 =
      Except.error (ConstructError.assembly "missing material") ∧
    buildersInvoked (constructTraceWith failingBuilders "diamond").1 =
      [Variant.diamond] :=
  assembly_error_surfaced failingBuilders "diamond" Variant.diamond
    "missing material" (by decide) rfl

/-- Claim C8 counterexample: the public surface of the class is not
limited to the constructor and the two methods `Construct` and
`ConstructSDandField` — the header also declares a public destructor
at line 45. -/
theorem public_surface_counterexample :
    ¬ (∀ m ∈ detectorConstructionDecl, m.access = Access.pub →
        m.kind = MemberKind.ctor ∨ m.name = "Construct" ∨
          m.name = "ConstructSDandField") := by
  decide

/-- Claim C8 (amended): the externally visible surface of the class is
its constructor, its destructor, and the two public methods
`Construct` and `ConstructSDandField`; the four variant builders are
declared private member functions, not invocable by external
callers. -/
theorem public_surface_amended :
    (detectorConstructionDecl.filter fun m =>
        decide (m.access = Access.pub)).map Member.name =
      ["DetectorConstruction", "~DetectorConstruction",
        "Construct", "ConstructSDandField"] ∧
    (detectorConstructionDecl.filter fun m =>
        decide (m.name ∈ builderNames)).map (fun m => (m.access, m.kind)) =
      [(Access.priv, MemberKind.method), (Access.priv, MemberKind.method),
        (Access.priv, MemberKind.method), (Access.priv, MemberKind.method)] := by
  decide

/-- Claim C9: the declared state of the class is exactly the analysis
collaborator pointer and the detector-type string — no further data
member exists, in particular none that could record a built/unbuilt
lifecycle, so no operation of this object can branch on stored
lifecycle state declared in this class. -/
theorem declared_state_only_analysis_and_token :
    (detectorConstructionDecl.filter fun m =>
        decide (m.kind = MemberKind.dataField)).map (fun m => (m.name, m.ret)) =
      [("analysis", CppType.ptrT "AnalysisManager"),
        ("detectorType", CppType.strT)] := by
  decide

/-- Claim C10: `ConstructSDandField` is declared with an empty
parameter list and a `void` result, so neither its parameters nor its
return value can carry an error condition back to the caller. -/
theorem constructSDandField_signature :
    (detectorConstructionDecl.filter fun m =>
        decide (m.name = "ConstructSDandField")) =
      [Member.mk Access.pub MemberKind.method "ConstructSDandField"
        CppType.voidT []] ∧
    (detectorConstructionDecl.filter fun m =>
        decide (m.name = "ConstructSDandField")).map
      (fun m => (m.params, carriesValue m.ret)) = [([], false)] := by
  decide
